import Mathlib

/-!
Verification of `src/surety/__init__.py`, the namespace binder of the
`surety` package.  After its two module-level imports (importlib and
sys), the module body is:

  try:
      config = importlib.import_module('surety_config.config')
  except ImportError:
      config = None

  if config:
      sys.modules['surety.config'] = config

  try:
      diff = importlib.import_module('surety_diff')
  except ImportError:
      diff = None

  if diff:
      sys.modules['surety.diff'] = diff

Embedding choices:
* A Python object is modelled by its identity (`oid`) and its truth value
  (`truthy`, the result of `bool(x)` as used by the `if config:` guard).
  Genuine module objects are always truthy, since `ModuleType` defines
  neither `__bool__` nor `__len__`; a falsy `truthy` flag models a
  non-module object planted in the registry under the external name.
* `importlib.import_module` is modelled as an oracle
  `env : String → ImportResult`: it either returns an object or raises
  an exception.  An exception carries two independent attributes: its
  type (`isImportError`: whether it is an instance of `ImportError`,
  the only thing `except ImportError` dispatches on) and its cause
  (`absent`: whether it signals that the module does not exist).
  Nonexistence raises `ModuleNotFoundError`, a subclass of
  `ImportError`, so an absence failure has `isImportError = true`; but
  a module that is found and fails while executing its own body can
  raise any type, `ImportError` itself included — the code cannot tell
  that case apart from absence.  Following the specification,
  resolution is an opaque facility; its own possible registry writes
  are outside the binder.
* `sys.modules` is the `Registry`, a total map from fully-qualified
  names to optional objects.
* Because `sys.modules` is global state that survives a propagated
  exception, a run result carries the registry state in the error case
  as well.
The module-level variables `config` and `diff` themselves are not
modelled: all claims are about the registry (`sys.modules`).
-/

/-- A Python object: its identity and its truth value under `bool(...)`. -/
structure PyObj where
  oid : Nat
  truthy : Bool
deriving DecidableEq, Repr

/-- An exception escaping `importlib.import_module(name)`.
`isImportError` says whether the exception object is an instance of
`ImportError` — the only attribute `except ImportError` dispatches on.
`absent` says whether the failure signals that the module does not
exist; absence always raises `ModuleNotFoundError ⊆ ImportError`, so
an absence failure also has `isImportError = true`, while a present
module failing during its own execution (`absent = false`) may raise
any type, including `ImportError` itself. -/
structure ImportExn where
  isImportError : Bool
  absent : Bool
  msg : String
deriving DecidableEq, Repr

/-- Outcome of `importlib.import_module(name)`: success with an object,
or an escaping exception. -/
inductive ImportResult where
  | ok (m : PyObj)
  | failed (exn : ImportExn)
deriving DecidableEq, Repr

/-- The module registry `sys.modules`. -/
def Registry : Type := String → Option PyObj

/-- `sys.modules[k] = v`. -/
def Registry.set (r : Registry) (k : String) (v : PyObj) : Registry :=
  fun k' => if k' = k then some v else r k'

/-- Result of running (part of) the module body: normal completion, or a
propagated exception.  The registry state is retained in both cases,
since `sys.modules` outlives the failed initialization. -/
inductive RunResult where
  | ok (r : Registry)
  | error (e : ImportExn) (r : Registry)

/-- The registry state after a run, completed or aborted. -/
def RunResult.reg : RunResult → Registry
  | .ok r => r
  | .error _ r => r

/-- One `try`/`except ImportError`/`if` block of the module body:

  try:
      x = importlib.import_module(extName)
  except ImportError:
      x = None
  if x:
      sys.modules[aliasPath] = x

The `except` clause catches exactly the exceptions whose type is
`ImportError`, whatever their cause; the variable is then `None`,
which is falsy, so no registration happens.  Any exception of another
type propagates, leaving the registry as it was. -/
def bindOne (env : String → ImportResult) (extName aliasPath : String)
    (r : Registry) : RunResult :=
  match env extName with
  | .ok m => if m.truthy then .ok (r.set aliasPath m) else .ok r
  | .failed exn => if exn.isImportError then .ok r else .error exn r

/-- Sequencing of two body blocks: an exception in the first aborts the
rest of the module body. -/
def RunResult.andThen : RunResult → (Registry → RunResult) → RunResult
  | .ok r, f => f r
  | .error e r, _ => .error e r

/-- The whole module body of `surety/__init__.py`: the config block,
then the diff block. -/
def suretyInit (env : String → ImportResult) (r : Registry) : RunResult :=
  (bindOne env "surety_config.config" "surety.config" r).andThen
    (bindOne env "surety_diff" "surety.diff")

/-- The module body with the two blocks in the reverse order, for the
order-insensitivity claim. -/
def suretyInitRev (env : String → ImportResult) (r : Registry) : RunResult :=
  (bindOne env "surety_diff" "surety.diff" r).andThen
    (bindOne env "surety_config.config" "surety.config")

/-- The binding outcome at one alias, as a function of the resolution
result for its external name and the prior entry at the alias. -/
def bindOutcome (res : ImportResult) (prior : Option PyObj) : Option PyObj :=
  match res with
  | .ok m => if m.truthy then some m else prior
  | .failed _ => prior

/-! ### Concrete objects, environments and registries -/

/-- A stand-in for the loaded `surety_config.config` module object. -/
def mConfig : PyObj := ⟨1, true⟩

/-- A stand-in for the loaded `surety_diff` module object. -/
def mDiff : PyObj := ⟨2, true⟩

/-- A successfully resolved but falsy (non-module) object. -/
def falsyObj : PyObj := ⟨3, false⟩

/-- A stale object left at an alias by some earlier actor. -/
def staleObj : PyObj := ⟨7, true⟩

/-- The failure signalling that a module does not exist:
`ModuleNotFoundError`, an instance of `ImportError`. -/
def absentExn : ImportExn := ⟨true, true, "module not found"⟩

/-- A non-ImportError exception raised by a present module while
executing its own body. -/
def crashExn : ImportExn := ⟨false, false, "boom"⟩

/-- A non-ImportError exception raised by a present `surety_diff`
while executing its own body. -/
def brokenDiffExn : ImportExn := ⟨false, false, "broken diff"⟩

/-- An `ImportError` raised by a present module while executing its
own body (e.g. the module's own `import` of a missing dependency):
`absent = false` but `isImportError = true`. -/
def brokenCfgExn : ImportExn := ⟨true, false, "cannot load missing dependency"⟩

/-- The empty module registry. -/
def emptyReg : Registry := fun _ => none

/-- Both external modules resolve. -/
def envBoth : String → ImportResult := fun n =>
  if n = "surety_config.config" then .ok mConfig
  else if n = "surety_diff" then .ok mDiff
  else .failed absentExn

/-- Neither external module exists. -/
def envNone : String → ImportResult := fun _ => .failed absentExn

/-- `surety_config.config` raises a non-ImportError exception. -/
def envCfgErr : String → ImportResult := fun n =>
  if n = "surety_config.config" then .failed crashExn
  else .failed absentExn

/-- `surety_config.config` resolves, `surety_diff` exists but raises a
non-ImportError exception during its own initialization. -/
def envDiffErr : String → ImportResult := fun n =>
  if n = "surety_config.config" then .ok mConfig
  else if n = "surety_diff" then .failed brokenDiffExn
  else .failed absentExn

/-- `surety_config.config` is found but raises an `ImportError` while
executing its own body; `surety_diff` does not exist. -/
def envCfgBrokenImport : String → ImportResult := fun n =>
  if n = "surety_config.config" then .failed brokenCfgExn
  else .failed absentExn

/-- Resolution of `surety_config.config` succeeds but yields a falsy
object; `surety_diff` does not exist. -/
def envCfgFalsy : String → ImportResult := fun n =>
  if n = "surety_config.config" then .ok falsyObj
  else .failed absentExn

/-- Only `surety_config.config` resolves. -/
def envCfgOnly : String → ImportResult := fun n =>
  if n = "surety_config.config" then .ok mConfig
  else .failed absentExn

/-- A registry holding a stale entry at the `surety.config` alias. -/
def regStale : Registry := emptyReg.set "surety.config" staleObj

/-- The registry after binding both descriptors into the empty
registry. -/
def regBoth : Registry :=
  (emptyReg.set "surety.config" mConfig).set "surety.diff" mDiff

/-- The registry after binding only the config descriptor into the
empty registry. -/
def regCfgOnly : Registry := emptyReg.set "surety.config" mConfig

/-! ### Registry lemmas -/

theorem Registry.set_same (r : Registry) (k : String) (v : PyObj) :
    r.set k v k = some v := by
  simp [Registry.set]

theorem Registry.set_ne (r : Registry) (k k' : String) (v : PyObj)
    (h : k' ≠ k) : r.set k v k' = r k' := by
  simp [Registry.set, h]

theorem Registry.set_idem_of_mem (r : Registry) (k : String) (v : PyObj)
    (h : r k = some v) : r.set k v = r := by
  funext k'
  by_cases hk : k' = k
  · subst hk; simp [Registry.set, h]
  · simp [Registry.set, hk]

theorem Registry.set_comm (r : Registry) (k₁ k₂ : String) (v₁ v₂ : PyObj)
    (h : k₁ ≠ k₂) : (r.set k₁ v₁).set k₂ v₂ = (r.set k₂ v₂).set k₁ v₁ := by
  funext k'
  by_cases h1 : k' = k₂ <;> by_cases h2 : k' = k₁ <;>
    simp_all [Registry.set]

theorem config_ne_diff : ("surety.config" : String) ≠ "surety.diff" := by
  decide

theorem diff_ne_config : ("surety.diff" : String) ≠ "surety.config" := by
  decide

/-! ### Structural lemmas about the binder -/

/-- A completed block sets its alias according to `bindOutcome` and
leaves every other key unchanged. -/
theorem bindOne_ok_cases (env : String → ImportResult)
    (extName aliasPath : String) (r r₁ : Registry)
    (h : bindOne env extName aliasPath r = .ok r₁) :
    r₁ aliasPath = bindOutcome (env extName) (r aliasPath) ∧
    ∀ k, k ≠ aliasPath → r₁ k = r k := by
  cases he : env extName with
  | ok m =>
    cases htm : m.truthy
    · simp [bindOne, he, htm] at h
      subst h
      simp [bindOutcome, he, htm]
    · simp [bindOne, he, htm] at h
      subst h
      refine ⟨by simp [bindOutcome, he, htm, Registry.set_same], ?_⟩
      intro k hk
      exact Registry.set_ne r aliasPath k m hk
  | failed exn =>
    cases hie : exn.isImportError
    · simp [bindOne, he, hie] at h
    · simp [bindOne, he, hie] at h
      subst h
      simp [bindOutcome, he]

/-- Whatever the outcome, a single block never changes a key other than
its own alias. -/
theorem bindOne_frame (env : String → ImportResult)
    (extName aliasPath : String) (r : Registry) (k : String)
    (hk : k ≠ aliasPath) :
    (bindOne env extName aliasPath r).reg k = r k := by
  cases he : env extName with
  | ok m =>
    cases htm : m.truthy <;>
      simp [bindOne, he, htm, RunResult.reg,
        Registry.set_ne r aliasPath k m hk]
  | failed exn =>
    cases hie : exn.isImportError <;>
      simp [bindOne, he, hie, RunResult.reg]

/-- A completed run of the module body factors into two completed
blocks. -/
theorem suretyInit_ok_split (env : String → ImportResult) (r r' : Registry)
    (h : suretyInit env r = .ok r') :
    ∃ r₁, bindOne env "surety_config.config" "surety.config" r = .ok r₁ ∧
      bindOne env "surety_diff" "surety.diff" r₁ = .ok r' := by
  unfold suretyInit at h
  cases hb : bindOne env "surety_config.config" "surety.config" r with
  | ok r₁ =>
    rw [hb] at h
    simp [RunResult.andThen] at h
    exact ⟨r₁, rfl, h⟩
  | error e r₁ =>
    rw [hb] at h
    simp [RunResult.andThen] at h

/-- After a completed run, the value at each alias is `bindOutcome` of
that descriptor's resolution result and the prior entry. -/
theorem suretyInit_ok_alias (env : String → ImportResult) (r r' : Registry)
    (h : suretyInit env r = .ok r') :
    r' "surety.config" =
      bindOutcome (env "surety_config.config") (r "surety.config") ∧
    r' "surety.diff" =
      bindOutcome (env "surety_diff") (r "surety.diff") := by
  obtain ⟨r₁, h1, h2⟩ := suretyInit_ok_split env r r' h
  obtain ⟨hc1, hf1⟩ := bindOne_ok_cases env _ _ r r₁ h1
  obtain ⟨hc2, hf2⟩ := bindOne_ok_cases env _ _ r₁ r' h2
  constructor
  · rw [hf2 "surety.config" config_ne_diff, hc1]
  · rw [hc2, hf1 "surety.diff" diff_ne_config]

/-- Two completed blocks with distinct aliases commute: the same final
registry is reached in the other order. -/
theorem bindOne_ok_comm (env : String → ImportResult)
    (n₁ a₁ n₂ a₂ : String) (r r₁ r' : Registry) (hne : a₁ ≠ a₂)
    (h1 : bindOne env n₁ a₁ r = .ok r₁)
    (h2 : bindOne env n₂ a₂ r₁ = .ok r') :
    ∃ r₂, bindOne env n₂ a₂ r = .ok r₂ ∧
      bindOne env n₁ a₁ r₂ = .ok r' := by
  cases he1 : env n₁ with
  | ok m₁ =>
    cases ht1 : m₁.truthy
    · simp [bindOne, he1, ht1] at h1
      subst h1
      exact ⟨r', h2, by simp [bindOne, he1, ht1]⟩
    · simp [bindOne, he1, ht1] at h1
      subst h1
      cases he2 : env n₂ with
      | ok m₂ =>
        cases ht2 : m₂.truthy
        · simp [bindOne, he2, ht2] at h2
          subst h2
          exact ⟨r, by simp [bindOne, he2, ht2],
            by simp [bindOne, he1, ht1]⟩
        · simp [bindOne, he2, ht2] at h2
          subst h2
          refine ⟨r.set a₂ m₂, by simp [bindOne, he2, ht2], ?_⟩
          simp [bindOne, he1, ht1,
            Registry.set_comm r a₁ a₂ m₁ m₂ hne]
      | failed exn =>
        cases hie : exn.isImportError
        · simp [bindOne, he2, hie] at h2
        · simp [bindOne, he2, hie] at h2
          subst h2
          exact ⟨r, by simp [bindOne, he2, hie],
            by simp [bindOne, he1, ht1]⟩
  | failed exn =>
    cases hie : exn.isImportError
    · simp [bindOne, he1, hie] at h1
    · simp [bindOne, he1, hie] at h1
      subst h1
      exact ⟨r', h2, by simp [bindOne, he1, hie]⟩

/-- Whatever the outcome, the whole module body never changes a key
other than the two aliases. -/
theorem suretyInit_frame (env : String → ImportResult) (r : Registry)
    (k : String) (h1 : k ≠ "surety.config") (h2 : k ≠ "surety.diff") :
    (suretyInit env r).reg k = r k := by
  unfold suretyInit
  cases hb : bindOne env "surety_config.config" "surety.config" r with
  | ok r₁ =>
    have ha := bindOne_frame env "surety_config.config" "surety.config" r k h1
    rw [hb] at ha
    simp only [RunResult.reg] at ha
    have hc := bindOne_frame env "surety_diff" "surety.diff" r₁ k h2
    simp [RunResult.andThen, hc, ha]
  | error e r₁ =>
    have ha := bindOne_frame env "surety_config.config" "surety.config" r k h1
    rw [hb] at ha
    simp only [RunResult.reg] at ha
    simp [RunResult.andThen, RunResult.reg, ha]

/-- Whatever the outcome of the config block, the entry at the diff
alias is unchanged by it. -/
theorem configBlock_keeps_diff (env : String → ImportResult)
    (r : Registry) (s : RunResult)
    (hb : bindOne env "surety_config.config" "surety.config" r = s) :
    s.reg "surety.diff" = r "surety.diff" := by
  have := bindOne_frame env "surety_config.config" "surety.config" r
    "surety.diff" diff_ne_config
  rwa [hb] at this

/-! ### Claims -/

/-- Claim C1: for each descriptor, if resolution of the external module
name succeeds and yields a module object (module objects are truthy,
since `ModuleType` defines neither `__bool__` nor `__len__`), then
after the binder runs the registry holds, at the alias path, the very
object obtained for the external name. -/
theorem C1_alias_is_resolved_object (env : String → ImportResult)
    (r r' : Registry) (h : suretyInit env r = .ok r') :
    (∀ m : PyObj, env "surety_config.config" = .ok m → m.truthy = true →
      r' "surety.config" = some m) ∧
    (∀ m : PyObj, env "surety_diff" = .ok m → m.truthy = true →
      r' "surety.diff" = some m) := by
  obtain ⟨hc, hd⟩ := suretyInit_ok_alias env r r' h
  constructor
  · intro m hm ht
    rw [hc, hm]
    simp [bindOutcome, ht]
  · intro m hm ht
    rw [hd, hm]
    simp [bindOutcome, ht]

/-- Witness for C1 at a concrete run: both modules resolve into the
empty registry. -/
theorem C1_alias_is_resolved_object_witness :
    regBoth "surety.config" = some mConfig ∧
    regBoth "surety.diff" = some mDiff :=
  ⟨(C1_alias_is_resolved_object envBoth emptyReg regBoth rfl).1
      mConfig rfl rfl,
   (C1_alias_is_resolved_object envBoth emptyReg regBoth rfl).2
      mDiff rfl rfl⟩

/-- Counterexample to C2 as stated: `surety_config.config` is found
(not absent) but raises an `ImportError` while executing its own
initialization.  `except ImportError` catches by exception type, not
by cause, so this failure — one the claim says must propagate — is
suppressed, and initialization completes normally with nothing
registered. -/
theorem C2_counterexample :
    brokenCfgExn.absent = false ∧
    brokenCfgExn.isImportError = true ∧
    envCfgBrokenImport "surety_config.config" = .failed brokenCfgExn ∧
    suretyInit envCfgBrokenImport emptyReg = .ok emptyReg :=
  ⟨rfl, rfl, rfl, rfl⟩

/-- Claim C2, amended: a resolution failure whose exception is not an
instance of `ImportError` is not suppressed: it propagates unmodified
to the caller, aborting initialization of the parent namespace.  (A
failure raising `ImportError` is suppressed even when the external
module was found and the error arose while executing its own
initialization — see the counterexample.) -/
theorem C2_non_importerror_propagates (env : String → ImportResult)
    (r : Registry) :
    (∀ exn : ImportExn, exn.isImportError = false →
      env "surety_config.config" = .failed exn →
      suretyInit env r = .error exn r) ∧
    (∀ (exn : ImportExn) (r₁ : Registry), exn.isImportError = false →
      bindOne env "surety_config.config" "surety.config" r = .ok r₁ →
      env "surety_diff" = .failed exn →
      suretyInit env r = .error exn r₁) := by
  constructor
  · intro exn hie he
    simp [suretyInit, bindOne, he, hie, RunResult.andThen]
  · intro exn r₁ hie h1 he
    unfold suretyInit
    rw [h1]
    simp [RunResult.andThen, bindOne, he, hie]

/-- Witness for the amended C2 at a concrete run: a non-ImportError
exception from `surety_config.config` aborts initialization
unmodified. -/
theorem C2_non_importerror_propagates_witness :
    suretyInit envCfgErr emptyReg = .error crashExn emptyReg :=
  (C2_non_importerror_propagates envCfgErr emptyReg).1 crashExn rfl rfl

/-- Claim C3: a descriptor whose external module does not exist
(absence raises `ModuleNotFoundError`, an `ImportError`) is skipped
without error, the next descriptor is still processed, and when both
are absent the whole initialization completes normally with the
registry unchanged. -/
theorem C3_absence_is_skipped (env : String → ImportResult)
    (r : Registry) :
    (∀ exn : ImportExn, env "surety_config.config" = .failed exn →
      exn.absent = true → exn.isImportError = true →
      bindOne env "surety_config.config" "surety.config" r = .ok r ∧
      suretyInit env r = bindOne env "surety_diff" "surety.diff" r) ∧
    (∀ exn : ImportExn, env "surety_diff" = .failed exn →
      exn.absent = true → exn.isImportError = true →
      bindOne env "surety_diff" "surety.diff" r = .ok r) ∧
    (∀ exnC exnD : ImportExn,
      env "surety_config.config" = .failed exnC →
      exnC.absent = true → exnC.isImportError = true →
      env "surety_diff" = .failed exnD →
      exnD.absent = true → exnD.isImportError = true →
      suretyInit env r = .ok r) := by
  refine ⟨fun exn hc habs hie => ⟨by simp [bindOne, hc, hie], ?_⟩,
    fun exn hd habs hie => by simp [bindOne, hd, hie],
    fun exnC exnD hcC habsC hieC hdD habsD hieD => ?_⟩
  · simp [suretyInit, bindOne, hc, hie, RunResult.andThen]
  · simp [suretyInit, bindOne, hcC, hieC, hdD, hieD, RunResult.andThen]

/-- Witness for C3 at a concrete run: neither module exists and
initialization completes with the registry untouched. -/
theorem C3_absence_is_skipped_witness :
    suretyInit envNone emptyReg = .ok emptyReg :=
  (C3_absence_is_skipped envNone emptyReg).2.2 absentExn absentExn
    rfl rfl rfl rfl rfl rfl

/-- Counterexample to C4 as stated: with a stale entry already present
at `surety.config` and the external module absent, the binder leaves
the stale alias entry in place, so the alias key is not absent
afterwards. -/
theorem C4_counterexample :
    envNone "surety_config.config" = .failed absentExn ∧
    absentExn.absent = true ∧
    (suretyInit envNone regStale).reg "surety.config" = some staleObj ∧
    (suretyInit envNone regStale).reg "surety.config" ≠ none :=
  ⟨rfl, rfl, rfl, by decide⟩

/-- Claim C4, amended: for a descriptor whose external module is absent
and whose alias path is absent from the prior registry, the alias path
is still absent after initialization (the binder never creates it). -/
theorem C4_absent_stays_absent (env : String → ImportResult)
    (r : Registry) :
    (∀ exn : ImportExn, env "surety_config.config" = .failed exn →
      exn.absent = true → exn.isImportError = true →
      r "surety.config" = none →
      (suretyInit env r).reg "surety.config" = none) ∧
    (∀ exn : ImportExn, env "surety_diff" = .failed exn →
      exn.absent = true → exn.isImportError = true →
      r "surety.diff" = none →
      (suretyInit env r).reg "surety.diff" = none) := by
  constructor
  · intro exn hc habs hie h0
    have hrun : suretyInit env r
        = bindOne env "surety_diff" "surety.diff" r := by
      simp [suretyInit, bindOne, hc, hie, RunResult.andThen]
    rw [hrun, bindOne_frame env "surety_diff" "surety.diff" r
      "surety.config" config_ne_diff, h0]
  · intro exn hd habs hie h0
    unfold suretyInit
    cases hb : bindOne env "surety_config.config" "surety.config" r with
    | ok r₁ =>
      have ha : r₁ "surety.diff" = r "surety.diff" :=
        configBlock_keeps_diff env r (.ok r₁) hb
      simp [RunResult.andThen, bindOne, hd, hie, RunResult.reg, ha, h0]
    | error e r₁ =>
      have ha : r₁ "surety.diff" = r "surety.diff" :=
        configBlock_keeps_diff env r (.error e r₁) hb
      simp [RunResult.andThen, RunResult.reg, ha, h0]

/-- Witness for the amended C4 at a concrete run: no modules, empty
registry, the alias stays absent. -/
theorem C4_absent_stays_absent_witness :
    (suretyInit envNone emptyReg).reg "surety.config" = none :=
  (C4_absent_stays_absent envNone emptyReg).1 absentExn rfl rfl rfl rfl

/-- Rerunning the module body on the registry state left by a previous
run (completed or aborted) leaves that state unchanged. -/
theorem suretyInit_reg_idem (env : String → ImportResult) (r : Registry) :
    (suretyInit env ((suretyInit env r).reg)).reg = (suretyInit env r).reg := by
  cases hc : env "surety_config.config" with
  | failed exnC =>
    cases hieC : exnC.isImportError
    · simp [suretyInit, bindOne, hc, hieC, RunResult.andThen, RunResult.reg]
    · cases hd : env "surety_diff" with
      | failed exnD =>
        cases hieD : exnD.isImportError <;>
          simp [suretyInit, bindOne, hc, hieC, hd, hieD,
            RunResult.andThen, RunResult.reg]
      | ok md =>
        cases htd : md.truthy
        · simp [suretyInit, bindOne, hc, hieC, hd, htd,
            RunResult.andThen, RunResult.reg]
        · have h3 : (r.set "surety.diff" md).set "surety.diff" md
              = r.set "surety.diff" md :=
            Registry.set_idem_of_mem _ _ _ (Registry.set_same r _ md)
          simp [suretyInit, bindOne, hc, hieC, hd, htd,
            RunResult.andThen, RunResult.reg, h3]
  | ok mc =>
    cases htc : mc.truthy
    · cases hd : env "surety_diff" with
      | failed exnD =>
        cases hieD : exnD.isImportError <;>
          simp [suretyInit, bindOne, hc, htc, hd, hieD,
            RunResult.andThen, RunResult.reg]
      | ok md =>
        cases htd : md.truthy
        · simp [suretyInit, bindOne, hc, htc, hd, htd,
            RunResult.andThen, RunResult.reg]
        · have h3 : (r.set "surety.diff" md).set "surety.diff" md
              = r.set "surety.diff" md :=
            Registry.set_idem_of_mem _ _ _ (Registry.set_same r _ md)
          simp [suretyInit, bindOne, hc, htc, hd, htd,
            RunResult.andThen, RunResult.reg, h3]
    · have h1 : (r.set "surety.config" mc).set "surety.config" mc
          = r.set "surety.config" mc :=
        Registry.set_idem_of_mem _ _ _ (Registry.set_same r _ mc)
      cases hd : env "surety_diff" with
      | failed exnD =>
        cases hieD : exnD.isImportError <;>
          simp [suretyInit, bindOne, hc, htc, hd, hieD,
            RunResult.andThen, RunResult.reg, h1]
      | ok md =>
        cases htd : md.truthy
        · simp [suretyInit, bindOne, hc, htc, hd, htd,
            RunResult.andThen, RunResult.reg, h1]
        · have hmem : ((r.set "surety.config" mc).set "surety.diff" md)
              "surety.config" = some mc := by
            rw [Registry.set_ne _ _ _ md config_ne_diff]
            exact Registry.set_same r _ mc
          have h2 : ((r.set "surety.config" mc).set "surety.diff" md).set
              "surety.config" mc
              = (r.set "surety.config" mc).set "surety.diff" md :=
            Registry.set_idem_of_mem _ _ _ hmem
          have h3 : ((r.set "surety.config" mc).set "surety.diff" md).set
              "surety.diff" md
              = (r.set "surety.config" mc).set "surety.diff" md :=
            Registry.set_idem_of_mem _ _ _ (Registry.set_same _ _ md)
          simp [suretyInit, bindOne, hc, htc, hd, htd,
            RunResult.andThen, RunResult.reg, h2, h3]

/-- Claim C5: with module availability unchanged, running the module
body twice in succession leaves the registry in the same final state as
running it once; in particular the state of a completed run is a fixed
point of the binder. -/
theorem C5_idempotent (env : String → ImportResult) (r : Registry) :
    (suretyInit env ((suretyInit env r).reg)).reg
      = (suretyInit env r).reg ∧
    ∀ rOnce, suretyInit env r = .ok rOnce →
      suretyInit env rOnce = .ok rOnce := by
  refine ⟨suretyInit_reg_idem env r, fun rOnce h => ?_⟩
  obtain ⟨ha, hb⟩ := suretyInit_ok_alias env r rOnce h
  obtain ⟨r₁, h1, h2⟩ := suretyInit_ok_split env r rOnce h
  have hc1 : bindOne env "surety_config.config" "surety.config" rOnce
      = .ok rOnce := by
    cases he : env "surety_config.config" with
    | ok m =>
      cases ht : m.truthy
      · simp [bindOne, he, ht]
      · have hmem : rOnce "surety.config" = some m := by
          rw [ha, he]
          simp [bindOutcome, ht]
        simp [bindOne, he, ht, Registry.set_idem_of_mem rOnce _ m hmem]
    | failed exn =>
      cases hie : exn.isImportError
      · simp [bindOne, he, hie] at h1
      · simp [bindOne, he, hie]
  have hc2 : bindOne env "surety_diff" "surety.diff" rOnce
      = .ok rOnce := by
    cases he : env "surety_diff" with
    | ok m =>
      cases ht : m.truthy
      · simp [bindOne, he, ht]
      · have hmem : rOnce "surety.diff" = some m := by
          rw [hb, he]
          simp [bindOutcome, ht]
        simp [bindOne, he, ht, Registry.set_idem_of_mem rOnce _ m hmem]
    | failed exn =>
      cases hie : exn.isImportError
      · simp [bindOne, he, hie] at h2
      · simp [bindOne, he, hie]
  unfold suretyInit
  rw [hc1]
  simpa [RunResult.andThen] using hc2

/-- Witness for C5 at a concrete run: rerunning after a completed run
on the empty registry with both modules present changes nothing. -/
theorem C5_idempotent_witness :
    suretyInit envBoth regBoth = .ok regBoth :=
  (C5_idempotent envBoth emptyReg).2 regBoth rfl

/-- Claim C6: the binding outcome of each descriptor depends only on
the resolution of its own external name; in particular, with both
modules present both aliases are bound correctly. -/
theorem C6_independence (env₁ env₂ : String → ImportResult)
    (r r₁ r₂ : Registry) :
    (env₁ "surety_config.config" = env₂ "surety_config.config" →
      suretyInit env₁ r = .ok r₁ → suretyInit env₂ r = .ok r₂ →
      r₁ "surety.config" = r₂ "surety.config") ∧
    (env₁ "surety_diff" = env₂ "surety_diff" →
      suretyInit env₁ r = .ok r₁ → suretyInit env₂ r = .ok r₂ →
      r₁ "surety.diff" = r₂ "surety.diff") ∧
    (∀ mc md : PyObj,
      env₁ "surety_config.config" = .ok mc → mc.truthy = true →
      env₁ "surety_diff" = .ok md → md.truthy = true →
      suretyInit env₁ r = .ok r₁ →
      r₁ "surety.config" = some mc ∧ r₁ "surety.diff" = some md) := by
  refine ⟨?_, ?_, ?_⟩
  · intro hagree h1 h2
    rw [(suretyInit_ok_alias env₁ r r₁ h1).1,
      (suretyInit_ok_alias env₂ r r₂ h2).1, hagree]
  · intro hagree h1 h2
    rw [(suretyInit_ok_alias env₁ r r₁ h1).2,
      (suretyInit_ok_alias env₂ r r₂ h2).2, hagree]
  · intro mc md hcm htc hdm htd h1
    obtain ⟨ha, hb⟩ := suretyInit_ok_alias env₁ r r₁ h1
    constructor
    · rw [ha, hcm]
      simp [bindOutcome, htc]
    · rw [hb, hdm]
      simp [bindOutcome, htd]

/-- Witness for C6 at two concrete runs differing only in the
availability of `surety_diff`: the entry at `surety.config` is the
same. -/
theorem C6_independence_witness :
    regBoth "surety.config" = regCfgOnly "surety.config" :=
  (C6_independence envBoth envCfgOnly emptyReg regBoth regCfgOnly).1
    rfl rfl rfl

/-- Claim C7: the binder's writes are confined to its two alias keys:
every other registry key is unchanged by the whole run, and each
descriptor's block leaves the other descriptor's alias untouched. -/
theorem C7_strictly_additive (env : String → ImportResult)
    (r : Registry) (k : String)
    (h1 : k ≠ "surety.config") (h2 : k ≠ "surety.diff") :
    (suretyInit env r).reg k = r k ∧
    (∀ r₁, bindOne env "surety_config.config" "surety.config" r = .ok r₁ →
      r₁ "surety.diff" = r "surety.diff") ∧
    (∀ r₁, bindOne env "surety_diff" "surety.diff" r = .ok r₁ →
      r₁ "surety.config" = r "surety.config") := by
  refine ⟨suretyInit_frame env r k h1 h2, fun r₁ hb => ?_, fun r₁ hb => ?_⟩
  · exact (bindOne_ok_cases env _ _ r r₁ hb).2 "surety.diff" diff_ne_config
  · exact (bindOne_ok_cases env _ _ r r₁ hb).2 "surety.config" config_ne_diff

/-- Witness for C7 at concrete runs: an unrelated key survives a full
run over a pre-populated registry, and the config block leaves the diff
alias empty. -/
theorem C7_strictly_additive_witness :
    (suretyInit envBoth regStale).reg "other.module"
      = regStale "other.module" ∧
    regCfgOnly "surety.diff" = emptyReg "surety.diff" :=
  ⟨(C7_strictly_additive envBoth regStale "other.module"
      (by decide) (by decide)).1,
   (C7_strictly_additive envCfgOnly emptyReg "other.module"
      (by decide) (by decide)).2.1 regCfgOnly rfl⟩

/-- Counterexample to C8 as stated: when `surety_config.config`
resolves but `surety_diff` raises a non-ImportError exception, the
given order binds the config alias before aborting while the reverse
order aborts first, so the two orders leave different registries. -/
theorem C8_counterexample :
    (suretyInit envDiffErr emptyReg).reg "surety.config" = some mConfig ∧
    (suretyInitRev envDiffErr emptyReg).reg "surety.config" = none :=
  ⟨rfl, rfl⟩

/-- Claim C8, amended: whenever the module body completes normally,
processing the two descriptors in the reverse order completes with the
same final registry. -/
theorem C8_order_insensitive (env : String → ImportResult)
    (r r' : Registry) (h : suretyInit env r = .ok r') :
    suretyInitRev env r = .ok r' := by
  obtain ⟨r₁, h1, h2⟩ := suretyInit_ok_split env r r' h
  obtain ⟨r₂, h3, h4⟩ :=
    bindOne_ok_comm env _ _ _ _ r r₁ r' config_ne_diff h1 h2
  unfold suretyInitRev
  rw [h3]
  simpa [RunResult.andThen] using h4

/-- Witness for the amended C8 at a concrete run with both modules
present. -/
theorem C8_order_insensitive_witness :
    suretyInitRev envBoth emptyReg = .ok regBoth :=
  C8_order_insensitive envBoth emptyReg regBoth rfl

/-- Claim C9: registration is gated on the truthiness of the resolved
object: a successfully resolved but falsy object is not registered at
the alias, and no error is raised. -/
theorem C9_truthiness_gate (env : String → ImportResult)
    (r : Registry) :
    (∀ m : PyObj, env "surety_config.config" = .ok m →
      m.truthy = false →
      bindOne env "surety_config.config" "surety.config" r = .ok r ∧
      (suretyInit env r).reg "surety.config" = r "surety.config") ∧
    (∀ m : PyObj, env "surety_diff" = .ok m → m.truthy = false →
      bindOne env "surety_diff" "surety.diff" r = .ok r ∧
      (suretyInit env r).reg "surety.diff" = r "surety.diff") := by
  constructor
  · intro m hm ht
    have hb : bindOne env "surety_config.config" "surety.config" r
        = .ok r := by
      simp [bindOne, hm, ht]
    refine ⟨hb, ?_⟩
    unfold suretyInit
    rw [hb]
    have hfr := bindOne_frame env "surety_diff" "surety.diff" r
      "surety.config" config_ne_diff
    simpa [RunResult.andThen] using hfr
  · intro m hm ht
    have hb : ∀ s : Registry,
        bindOne env "surety_diff" "surety.diff" s = .ok s := by
      intro s
      simp [bindOne, hm, ht]
    refine ⟨hb r, ?_⟩
    unfold suretyInit
    cases hc : bindOne env "surety_config.config" "surety.config" r with
    | ok r₁ =>
      have hfr : r₁ "surety.diff" = r "surety.diff" :=
        configBlock_keeps_diff env r (.ok r₁) hc
      simp [RunResult.andThen, hb r₁, RunResult.reg, hfr]
    | error e r₁ =>
      have hfr : r₁ "surety.diff" = r "surety.diff" :=
        configBlock_keeps_diff env r (.error e r₁) hc
      simp [RunResult.andThen, RunResult.reg, hfr]

/-- Witness for C9 at a concrete run: a falsy object under
`surety_config.config` leaves the alias unregistered without error. -/
theorem C9_truthiness_gate_witness :
    bindOne envCfgFalsy "surety_config.config" "surety.config" emptyReg
      = .ok emptyReg ∧
    (suretyInit envCfgFalsy emptyReg).reg "surety.config"
      = emptyReg "surety.config" :=
  (C9_truthiness_gate envCfgFalsy emptyReg).1 falsyObj rfl rfl

/-- Claim C10: when the config descriptor binds and resolving
`surety_diff` raises a non-ImportError exception, the run aborts with
that exception while the already-bound `surety.config` entry stays in
the registry: no rollback happens. -/
theorem C10_no_rollback (env : String → ImportResult) (r : Registry)
    (mc : PyObj) (exn : ImportExn)
    (hc : env "surety_config.config" = .ok mc) (ht : mc.truthy = true)
    (hd : env "surety_diff" = .failed exn)
    (hie : exn.isImportError = false) :
    suretyInit env r = .error exn (r.set "surety.config" mc) ∧
    (suretyInit env r).reg "surety.config" = some mc := by
  have h : suretyInit env r = .error exn (r.set "surety.config" mc) := by
    simp [suretyInit, bindOne, hc, ht, hd, hie, RunResult.andThen]
  refine ⟨h, ?_⟩
  rw [h]
  simp [RunResult.reg, Registry.set_same]

/-- Witness for C10 at a concrete run: `surety_diff` is broken with a
non-ImportError, the run aborts, and the config alias bound just
before remains. -/
theorem C10_no_rollback_witness :
    suretyInit envDiffErr emptyReg
      = .error brokenDiffExn (emptyReg.set "surety.config" mConfig) ∧
    (suretyInit envDiffErr emptyReg).reg "surety.config" = some mConfig :=
  C10_no_rollback envDiffErr emptyReg mConfig brokenDiffExn
    rfl rfl rfl rfl
